import Mathlib

/-!
Shallow embedding of the location/species/gear resolution pipeline of
`fishing_calendar_app.py` (a pandas/streamlit data-lookup app), together
with theorems settling the specification claims about it.

Conventions of the embedding:
* A pandas table is a `List` of row structures, in file order.
* A cell of a row is a `Cell`: the column can be absent from the table
  (`Cell.absent`), the cell can be null, i.e. NaN after `read_csv`
  (`Cell.null`), or it can hold a string value (`Cell.val`).
* `Series.get(key, default)` is `rowGetD`: the default applies only when
  the key (column) is absent; a null cell yields the NaN value.
* Python scalars flowing through the script are `PyVal` (a string, the
  float NaN, or None).
* Case folding models Python `str.lower` on ASCII text (the sentinel and
  example strings in the code are all ASCII).
* Pandas `Series.str.contains(pat, case=False, na=False)` compiles the
  pattern as a regular expression (`regex=True` is the pandas default)
  and runs `re.search` with `re.IGNORECASE`.  The engine below covers
  patterns built from literal characters and the dot metacharacter,
  which each match exactly one character; this is the fragment the
  theorems instantiate.
-/

deriving instance DecidableEq for Except

namespace FishingCal

/-- A Python scalar value as it flows through the script: a string, the
float NaN that pandas uses for missing data, or None. -/
inductive PyVal where
  | str (s : String)
  | nan
  | noneV
  deriving Repr, DecidableEq

/-- A cell of a loaded table row: the column may be absent from the table
altogether, the cell may be null (NaN after `read_csv`), or it holds a
string value. -/
inductive Cell where
  | absent
  | null
  | val (s : String)
  deriving Repr, DecidableEq

/-- `row.get(key, default)` on a pandas Series row: the default is
returned only when the key is absent from the row index; a null cell is
returned as NaN, and a present cell as its value. -/
def rowGetD : Cell → PyVal → PyVal
  | .absent, d => d
  | .null, _ => .nan
  | .val s, _ => .str s

/-- `pd.notna` on a scalar: false exactly on NaN and None. -/
def notna : PyVal → Bool
  | .str _ => true
  | .nan => false
  | .noneV => false

/-- Rendering of a scalar inside an f-string. -/
def pyStr : PyVal → String
  | .str s => s
  | .nan => "nan"
  | .noneV => "None"

/-- Python `value != text` for a scalar against a string literal:
NaN and None are unequal to every string. -/
def pyNeStr : PyVal → String → Bool
  | .str s, t => s != t
  | .nan, _ => true
  | .noneV, _ => true

/-- A row of `locations.csv` (columns of the source schema; the required
columns are `location_name` and `zone`, the rest are optional and may be
`Cell.absent`). -/
structure LocationRow where
  location_name : Cell
  zone : Cell
  state : Cell
  latitude : Cell
  longitude : Cell
  deriving Repr, DecidableEq

/-- A row of `fishing_data.csv` (required columns `month`, `zone`,
`species`; the rest optional). -/
structure SpeciesRow where
  month : Cell
  zone : Cell
  species : Cell
  rating : Cell
  legal_min_cm : Cell
  legal_max_cm : Cell
  deriving Repr, DecidableEq

/-- A row of `gear_data.csv` (required column `species`). -/
structure GearRow where
  species : Cell
  rod : Cell
  deriving Repr, DecidableEq

/-- Pandas `series == name` on a cell: exact string equality; a null
cell compares unequal to every string. -/
def cellEqStr : Cell → String → Bool
  | .val s, t => s == t
  | _, _ => false

/-- Python `str.lower()` on ASCII text.  Defined over the character list
so that it reduces inside the kernel. -/
def lowerStr (s : String) : String := ⟨s.data.map Char.toLower⟩

/-- `gear_df['species'].str.lower() == species.lower()` on one cell:
`.str.lower()` maps a null cell to NaN, and NaN compares unequal to the
lowered key, so only a string cell can match. -/
def speciesKeyMatches (c : Cell) (k : String) : Bool :=
  match c with
  | .val s => lowerStr s == k
  | _ => false

/-- Lines 129-130: `gear_match = gear_df[gear_df['species'].str.lower()
== species.lower()]` followed by `gear_match.iloc[0] if not
gear_match.empty else None` — the first row of the boolean-mask
selection, or None when the selection is empty. -/
def gearLookup (gearTab : List GearRow) (species : String) : Option GearRow :=
  (gearTab.filter (fun g => speciesKeyMatches g.species (lowerStr species))).head?

/- ### Zone matching (line 115) -/

/-- A token of the regular-expression fragment the zone patterns use:
a literal character or the dot metacharacter.  Each token matches
exactly one character. -/
inductive RTok where
  | lit (c : Char)
  | dot
  deriving Repr, DecidableEq

/-- Whether one token matches one character; literals compare after
case folding, modelling `re.IGNORECASE`. -/
def tokMatches : RTok → Char → Bool
  | .lit c, d => c.toLower == d.toLower
  | .dot, _ => true

/-- Whether the token sequence matches a prefix of the text. -/
def matchHere : List RTok → List Char → Bool
  | [], _ => true
  | _ :: _, [] => false
  | t :: p, c :: s => tokMatches t c && matchHere p s

/-- `re.search`: whether the token sequence matches at some position of
the text. -/
def reSearch (p : List RTok) : List Char → Bool
  | [] => matchHere p []
  | c :: s => matchHere p (c :: s) || reSearch p s

/-- Compilation of a pattern string into tokens: the dot is the any-
character metacharacter, every other character is a literal.  This is
the regular-expression fragment used by the theorems below. -/
def parsePattern (pat : String) : List RTok :=
  pat.data.map (fun c => if c == '.' then RTok.dot else RTok.lit c)

/-- `fishing_df['zone'].str.contains(pat, case=False, na=False)` on one
cell: a null cell yields false (`na=False`); a string cell is searched
with the pattern as a case-insensitive regular expression (`regex=True`
is the pandas default). -/
def zoneContains (zoneCell : Cell) (pat : String) : Bool :=
  match zoneCell with
  | .val s => reSearch (parsePattern pat) s.data
  | _ => false

/-- The text before the first occurrence of `" ("`, scanning left to
right. -/
def beforeSep : List Char → List Char
  | [] => []
  | ' ' :: '(' :: _ => []
  | c :: rest => c :: beforeSep rest

/-- `zone.split(' (')[0]`: the canonical zone key, the text of the zone
label before the first occurrence of `" ("` (the whole label when the
separator does not occur). -/
def canonZoneKey (zone : String) : String := ⟨beforeSep zone.data⟩

/-- `df[mask]`: boolean-mask row selection, keeping table order. -/
def selectRows : List SpeciesRow → List Bool → List SpeciesRow
  | [], _ => []
  | _, [] => []
  | r :: rs, b :: bs => if b then r :: selectRows rs bs else selectRows rs bs

/-- The mask `fishing_df['month'] == month_name`. -/
def monthMask (fish : List SpeciesRow) (monthName : String) : List Bool :=
  fish.map (fun e => cellEqStr e.month monthName)

/-- The mask `fishing_df['zone'].str.contains(key, case=False,
na=False)`. -/
def zoneMask (fish : List SpeciesRow) (key : String) : List Bool :=
  fish.map (fun e => zoneContains e.zone key)

/-- Lines 113-116: the filtered species table, the conjunction of the
month mask and the zone mask applied to the table by boolean-mask
selection. -/
def filteredTab (fish : List SpeciesRow) (zone : String) (monthName : String) :
    List SpeciesRow :=
  selectRows fish
    (List.zipWith (fun a b => a && b) (monthMask fish monthName)
      (zoneMask fish (canonZoneKey zone)))

/-- Spec-side definition (for the refinement comparison in C1/C9):
case-insensitive literal substring containment of `key` in `hay`. -/
def isSubstrOfCI (key hay : String) : Bool :=
  (List.range (hay.data.length + 1)).any
    (fun i => (lowerStr key).data.isPrefixOf ((lowerStr hay).data.drop i))

/-- Spec-side definition of the species filter as the specification
words it (claim C1): month equality and case-insensitive literal
substring containment of the canonical zone key in the row zone, null
zones never matching. -/
def specFilteredC1 (fish : List SpeciesRow) (zone monthName : String) :
    List SpeciesRow :=
  fish.filter (fun e => cellEqStr e.month monthName &&
    (match e.zone with
     | .val s => isSubstrOfCI (canonZoneKey zone) s
     | _ => false))

/- ### Species display (lines 125-141) -/

/-- The sentinel list of line 133. -/
def closedSentinels : List String := ["closed", "no take", "closed season"]

/-- Line 133: `rating.lower() in ['closed', 'no take', 'closed
season']`. -/
def isClosedRating (rating : String) : Bool :=
  closedSentinels.contains (lowerStr rating)

/-- What the species expander body shows for sizes: either the closed-
season warning or the size line. -/
inductive SpeciesInfo where
  | closedWarning
  | sizes (s : String)
  deriving Repr, DecidableEq

/-- Line 138: `size_str = f"**Legal min:** {min_cm} cm"` with `min_cm =
row.get('legal_min_cm', 'N/A')`. -/
def minPartStr (row : SpeciesRow) : String :=
  "**Legal min:** " ++ pyStr (rowGetD row.legal_min_cm (PyVal.str "N/A")) ++ " cm"

/-- Lines 136-140: the size line; the max part is appended only when
`pd.notna(max_cm) and max_cm != ''` holds for `max_cm =
row.get('legal_max_cm', None)`. -/
def sizeStr (row : SpeciesRow) : String :=
  let max_cm := rowGetD row.legal_max_cm PyVal.noneV
  if notna max_cm && pyNeStr max_cm "" then
    minPartStr row ++ "  |  **Max:** " ++ pyStr max_cm ++ " cm"
  else
    minPartStr row

/-- Lines 127 and 132-141: `rating = row.get('rating', '—')`, then the
closed-season branch.  `rating.lower()` raises (AttributeError) when the
rating is the float NaN, i.e. when the rating cell is null; the embedding
returns `Except.error ()` there. -/
def speciesDisplay (row : SpeciesRow) : Except Unit SpeciesInfo :=
  match rowGetD row.rating (PyVal.str "—") with
  | .str r =>
      .ok (if isClosedRating r then .closedWarning else .sizes (sizeStr row))
  | _ => .error ()

/- ### Location view (lines 85-98) -/

/-- `'key' in loc_row`: whether the column is present in the row
index. -/
def cellPresent : Cell → Bool
  | .absent => false
  | _ => true

/-- `pd.notna(loc_row['key'])` on a cell of a present column. -/
def notnaCell : Cell → Bool
  | .val _ => true
  | _ => false

/-- Rendering of a cell value inside an f-string (only reached for
present cells in the code paths modelled here). -/
def cellStr : Cell → String
  | .val s => s
  | .null => "nan"
  | .absent => ""

/-- Lines 96-98: the Google Maps link, produced exactly when both
coordinate columns are present in the row and both cells are non-null
(`pd.notna`); no numeric parsing or validation occurs. -/
def mapsLink (l : LocationRow) : Option String :=
  if cellPresent l.latitude && cellPresent l.longitude &&
     notnaCell l.latitude && notnaCell l.longitude then
    some ("https://www.google.com/maps?q=" ++ cellStr l.latitude ++ ","
      ++ cellStr l.longitude)
  else
    none

/-- Spec-side definition (claim C7): whether a string is a valid decimal
number (optional leading minus sign, digits with at most one decimal
point, at least one digit). -/
def isNumericStr (s : String) : Bool :=
  let t := match s.data with
    | '-' :: rest => rest
    | l => l
  t.any (fun c => c.isDigit) &&
  t.all (fun c => c.isDigit || c == '.') &&
  (t.filter (fun c => c == '.')).length ≤ 1

/-- The date selected in the date picker: a calendar month number
(1-12 for a real `datetime.date`) and a year. -/
structure PyDate where
  month : Nat
  year : Int
  deriving Repr, DecidableEq

/-- `calendar.month_name`: index 0 is the empty string, indices 1-12 the
English full month names. -/
def monthNames : List String :=
  ["", "January", "February", "March", "April", "May", "June", "July",
   "August", "September", "October", "November", "December"]

/-- Line 90: `calendar.month_name[selected_date.month]`. -/
def monthNameOf (m : Nat) : String := monthNames.getD m ""

/-- Spec-side definition (claim C5): the English full name of calendar
month `m`. -/
def englishMonthName : Nat → String
  | 1 => "January"
  | 2 => "February"
  | 3 => "March"
  | 4 => "April"
  | 5 => "May"
  | 6 => "June"
  | 7 => "July"
  | 8 => "August"
  | 9 => "September"
  | 10 => "October"
  | 11 => "November"
  | 12 => "December"
  | _ => ""

/-- Line 88: `zone = loc_row.get('zone', 'Unknown')`. -/
def derivedZone (l : LocationRow) : PyVal :=
  rowGetD l.zone (PyVal.str "Unknown")

/-- The resolved per-query view: the selected location row and the
context derived from it on lines 88-98. -/
structure ResolvedView where
  loc : LocationRow
  zone : PyVal
  monthName : String
  year : Int
  mapsUrl : Option String
  deriving Repr, DecidableEq

/-- The view built from a location row and the selected date
(lines 86-98). -/
def mkView (l : LocationRow) (d : PyDate) : ResolvedView :=
  ⟨l, derivedZone l, monthNameOf d.month, d.year, mapsLink l⟩

/-- Lines 85-86 and 157-161: the location lookup.  The guard is `not
locations_df.empty and selected_location in
locations_df['location_name'].values`; on success the row is
`locations_df[locations_df['location_name'] == selected_location]
.iloc[0]`, the first row of the mask selection.  `none` models the
fallback branch (a rendered warning, not an abort). -/
def resolve (locs : List LocationRow) (name : String) (d : PyDate) :
    Option ResolvedView :=
  if !locs.isEmpty && locs.any (fun l => cellEqStr l.location_name name) then
    match (locs.filter (fun l => cellEqStr l.location_name name)).head? with
    | some l => some (mkView l d)
    | none => none
  else
    none

/- ### Table loading (lines 12-38) -/

/-- A raw loaded table: its column list and its rows. -/
structure RawTable where
  cols : List String
  rows : List (List String)
  deriving Repr, DecidableEq

/-- `pd.DataFrame()`: the empty table. -/
def emptyTable : RawTable := ⟨[], []⟩

/-- The outcome of `pd.read_csv` on one source file: the file can be
missing (FileNotFoundError), malformed (ParserError), fail otherwise
(any other exception), or parse to a table. -/
inductive LoadSource where
  | missingFile
  | parseError
  | otherError
  | ok (t : RawTable)
  deriving Repr, DecidableEq

/-- Lines 12-32: `safe_load`.  Every failure, and a table missing any
required column, yields the empty table together with a reported
condition (the `st.error` call, modelled as the boolean flag); a valid
table is returned unchanged with no condition.  The function is total:
no outcome aborts. -/
def safe_load (src : LoadSource) (required : List String) : RawTable × Bool :=
  match src with
  | .missingFile => (emptyTable, true)
  | .parseError => (emptyTable, true)
  | .otherError => (emptyTable, true)
  | .ok t =>
      if (required.filter (fun c => !(t.cols.contains c))).isEmpty then
        (t, false)
      else
        (emptyTable, true)

/-- Lines 34-38: `load_data`, three independent `safe_load` calls with
the source file names and required column lists of the code.  The file
system is modelled as a map from file name to load outcome. -/
def load_data (fs : String → LoadSource) :
    (RawTable × Bool) × (RawTable × Bool) × (RawTable × Bool) :=
  (safe_load (fs "locations.csv") ["location_name", "zone"],
   safe_load (fs "fishing_data.csv") ["month", "zone", "species"],
   safe_load (fs "gear_data.csv") ["species"])

/- ### Concrete rows used by counterexamples and witnesses -/

/-- A species row whose zone contains no dot, against a location zone
key that does contain a dot. -/
def exRowDotZone : SpeciesRow :=
  ⟨Cell.val "January", Cell.val "XA", Cell.val "Snapper", Cell.val "Good",
   Cell.val "30", Cell.null⟩

/-- A species row for the regex/literal divergence: the zone label has a
space where the key has a dot. -/
def exRowNSW : SpeciesRow :=
  ⟨Cell.val "January", Cell.val "NSW EAST", Cell.val "Bream", Cell.val "Good",
   Cell.val "25", Cell.null⟩

/-- A species row whose rating is "CLOSED", a casing that matches no
sentinel exactly. -/
def exRowClosedCaps : SpeciesRow :=
  ⟨Cell.val "January", Cell.val "NSW East", Cell.val "Snapper",
   Cell.val "CLOSED", Cell.val "30", Cell.val "60"⟩

/-- A location row whose zone cell is null (an empty zone cell in
`locations.csv`). -/
def exLocNullZone : LocationRow :=
  ⟨Cell.val "Ghost Town", Cell.null, Cell.val "NSW", Cell.null, Cell.null⟩

/-- A location row whose coordinate cells hold non-numeric text. -/
def exLocBadCoords : LocationRow :=
  ⟨Cell.val "Oddville", Cell.val "NSW East", Cell.val "NSW",
   Cell.val "abc", Cell.val "151.2"⟩

/-- An ordinary, fully populated location row. -/
def exLocSydney : LocationRow :=
  ⟨Cell.val "Sydney", Cell.val "NSW East (default)", Cell.val "NSW",
   Cell.val "-33.8", Cell.val "151.2"⟩

/-- A species row whose zone label contains the canonical key of
`exLocSydney` as a case-insensitive substring. -/
def exRowJan : SpeciesRow :=
  ⟨Cell.val "January", Cell.val "nsw east coast", Cell.val "Snapper",
   Cell.val "Good", Cell.val "30", Cell.null⟩

/-- A species row whose rating is exactly "Closed". -/
def exRowClosedStd : SpeciesRow :=
  ⟨Cell.val "May", Cell.val "QLD", Cell.val "Barramundi",
   Cell.val "Closed", Cell.val "58", Cell.null⟩

/-- A species row whose rating cell is null (an empty rating cell in
`fishing_data.csv`). -/
def exRowNullRating : SpeciesRow :=
  ⟨Cell.val "June", Cell.val "VIC", Cell.val "Gummy Shark",
   Cell.null, Cell.val "45", Cell.null⟩

/- ### Generic list helpers shared by several claims -/

theorem head?_filter_eq_find? {α : Type} (p : α → Bool) (l : List α) :
    (l.filter p).head? = l.find? p := by
  induction l with
  | nil => rfl
  | cons a l ih =>
    by_cases h : p a
    · simp [List.filter_cons, List.find?_cons, h]
    · simp only [Bool.not_eq_true] at h
      simp [List.filter_cons, List.find?_cons, h, ih]

theorem find?_some_decomp {α : Type} (p : α → Bool) (l : List α) (a : α)
    (h : l.find? p = some a) :
    p a = true ∧ ∃ pre post, l = pre ++ a :: post ∧ ∀ x ∈ pre, p x = false := by
  induction l with
  | nil => simp [List.find?] at h
  | cons b l ih =>
    by_cases hb : p b
    · rw [List.find?_cons_of_pos _ hb] at h
      cases h
      exact ⟨hb, [], l, rfl, by simp⟩
    · simp only [Bool.not_eq_true] at hb
      rw [List.find?_cons_of_neg _ (by simp [hb])] at h
      obtain ⟨hpa, pre, post, hl, hpre⟩ := ih h
      refine ⟨hpa, b :: pre, post, by simp [hl], ?_⟩
      intro x hx
      rcases List.mem_cons.mp hx with h1 | h2
      · exact h1 ▸ hb
      · exact hpre x h2

theorem selectRows_map (p : SpeciesRow → Bool) (l : List SpeciesRow) :
    selectRows l (l.map p) = l.filter p := by
  induction l with
  | nil => rfl
  | cons a l ih =>
    simp only [List.map_cons, selectRows]
    by_cases h : p a
    · simp [h, ih, List.filter_cons]
    · simp only [Bool.not_eq_true] at h
      simp [h, ih, List.filter_cons]

theorem selectRows_two_masks (f g : SpeciesRow → Bool) (l : List SpeciesRow) :
    selectRows l (List.zipWith (fun a b => a && b) (l.map f) (l.map g))
      = l.filter (fun e => f e && g e) := by
  have hz : List.zipWith (fun a b => a && b) (l.map f) (l.map g)
      = l.map (fun e => f e && g e) := by
    induction l with
    | nil => rfl
    | cons a l ih => simp only [List.map_cons, List.zipWith_cons_cons]; rw [ih]
  rw [hz, selectRows_map]

theorem cellEqStr_eq_val (c : Cell) (t : String) (h : cellEqStr c t = true) :
    c = Cell.val t := by
  cases c with
  | val s =>
      have hs : s = t := by simpa [cellEqStr] using h
      rw [hs]
  | absent => simp [cellEqStr] at h
  | null => simp [cellEqStr] at h

theorem zoneContains_val (c : Cell) (k : String) (h : zoneContains c k = true) :
    ∃ s, c = Cell.val s ∧ reSearch (parsePattern k) s.data = true := by
  cases c with
  | val s => exact ⟨s, rfl, h⟩
  | absent => simp [zoneContains] at h
  | null => simp [zoneContains] at h

theorem resolve_eq_find? (locs : List LocationRow) (name : String) (d : PyDate) :
    resolve locs name d =
      (locs.find? (fun l => cellEqStr l.location_name name)).map
        (fun l => mkView l d) := by
  unfold resolve
  rw [head?_filter_eq_find?]
  by_cases hany : locs.any (fun l => cellEqStr l.location_name name)
  · have hne : locs.isEmpty = false := by
      cases locs with
      | nil => simp at hany
      | cons a t => rfl
    rw [hne, hany]
    cases hf : locs.find? (fun l => cellEqStr l.location_name name) with
    | none =>
        rw [List.find?_eq_none] at hf
        obtain ⟨x, hx, hpx⟩ := List.any_eq_true.mp hany
        exact absurd hpx (by simpa using hf x hx)
    | some l => simp
  · simp only [Bool.not_eq_true] at hany
    have hf : locs.find? (fun l => cellEqStr l.location_name name) = none := by
      rw [List.find?_eq_none]
      intro x hx
      have := List.any_eq_false.mp hany x hx
      simpa using this
    rw [hf, hany]
    simp

/- ### C1 -/

/-- C1 (amended): for every location zone string and month name, the
filtered species sequence is exactly the rows of the species table whose
month field equals the month name and whose (non-null) zone field
matches the canonical zone key — the text before the first `" ("` —
interpreted as a case-insensitive regular-expression pattern via
`re.search` (not literal substring containment, because pandas
`str.contains` defaults to `regex=True`); null-zone rows never match
(`na=False`), and the result preserves table order with no
re-sorting. -/
theorem filtered_species_characterization (fish : List SpeciesRow)
    (z m : String) :
    filteredTab fish z m
      = fish.filter (fun e => cellEqStr e.month m &&
          zoneContains e.zone (canonZoneKey z))
    ∧ (filteredTab fish z m).Sublist fish
    ∧ ∀ e ∈ filteredTab fish z m,
        e.month = Cell.val m ∧
        ∃ s, e.zone = Cell.val s ∧
          reSearch (parsePattern (canonZoneKey z)) s.data = true := by
  have h1 : filteredTab fish z m
      = fish.filter (fun e => cellEqStr e.month m &&
          zoneContains e.zone (canonZoneKey z)) := by
    rw [filteredTab, monthMask, zoneMask]
    exact selectRows_two_masks _ _ fish
  refine ⟨h1, ?_, ?_⟩
  · rw [h1]; exact List.filter_sublist fish
  · intro e he
    rw [h1] at he
    have hcond := List.of_mem_filter he
    rw [Bool.and_eq_true] at hcond
    exact ⟨cellEqStr_eq_val _ _ hcond.1, zoneContains_val _ _ hcond.2⟩

/-- Concrete instance of `filtered_species_characterization`: a January
row whose zone label contains the canonical key of the Sydney zone
label case-insensitively is kept, and its month and zone fields have
the stated shape. -/
theorem filtered_species_characterization_witness :
    exRowJan ∈ filteredTab [exRowJan] "NSW East (default)" "January" ∧
    exRowJan.month = Cell.val "January" ∧
    (∃ s, exRowJan.zone = Cell.val s ∧
      reSearch (parsePattern (canonZoneKey "NSW East (default)")) s.data
        = true) := by
  have h := filtered_species_characterization [exRowJan]
    "NSW East (default)" "January"
  have hm : exRowJan ∈ filteredTab [exRowJan] "NSW East (default)" "January" := by
    rw [h.1]; decide
  exact ⟨hm, (h.2.2 exRowJan hm).1, (h.2.2 exRowJan hm).2⟩

/-- Counterexample to C1 as stated: with zone label "X." (canonical key
"X.", which contains a regex metacharacter) and a species row whose zone
is "XA", the code keeps the row (the dot matches any character) while
case-insensitive literal substring containment rejects it, so the
filtered sequence is not the literal-containment filter. -/
theorem filtered_species_literal_counterexample :
    filteredTab [exRowDotZone] "X." "January"
      ≠ specFilteredC1 [exRowDotZone] "X." "January" ∧
    filteredTab [exRowDotZone] "X." "January" = [exRowDotZone] ∧
    specFilteredC1 [exRowDotZone] "X." "January" = [] := by decide

/- ### C9 -/

/-- C9: the zone match treats the canonical zone key as a regular-
expression pattern, not a literal string: for the location zone label
"NSW.EAST" (canonical key "NSW.EAST", containing the dot
metacharacter) and a species row with zone "NSW EAST", the code matches
the row (the dot matches the space) although the key is not a case-
insensitive literal substring of the row zone, so the matched set
differs from literal containment. -/
theorem zone_match_is_regex :
    filteredTab [exRowNSW] "NSW.EAST" "January" = [exRowNSW] ∧
    specFilteredC1 [exRowNSW] "NSW.EAST" "January" = [] ∧
    zoneContains (Cell.val "NSW EAST") "NSW.EAST" = true ∧
    isSubstrOfCI "NSW.EAST" "NSW EAST" = false := by decide

/- ### C3 -/

/-- C3: for every species name, the gear profile lookup uses
case-insensitive exact equality on the species name; when no gear row
matches the result is `none` (absent, not an error), and when one or
more rows match the result is the first matching row in gear-table
order.  Determinism is intrinsic: `gearLookup` is a pure function of the
table and the name. -/
theorem gearLookup_first_match (gearTab : List GearRow) (sp : String) :
    (gearLookup gearTab sp = none ↔
      ∀ g ∈ gearTab, speciesKeyMatches g.species (lowerStr sp) = false)
    ∧ (∀ g, gearLookup gearTab sp = some g →
        speciesKeyMatches g.species (lowerStr sp) = true ∧
        ∃ pre post, gearTab = pre ++ g :: post ∧
          ∀ x ∈ pre, speciesKeyMatches x.species (lowerStr sp) = false) := by
  constructor
  · rw [gearLookup, head?_filter_eq_find?]
    rw [List.find?_eq_none]
    constructor
    · intro h g hg
      have := h g hg
      simpa using this
    · intro h g hg
      simp [h g hg]
  · intro g hg
    rw [gearLookup, head?_filter_eq_find?] at hg
    exact find?_some_decomp _ _ _ hg

/-- Concrete instance of `gearLookup_first_match`: on a two-row gear
table whose rows both match the key "Snapper" case-insensitively, the
lookup returns the first row in table order, and on the key "Bream" it
returns none. -/
theorem gearLookup_first_match_witness :
    gearLookup [⟨Cell.val "snapper", Cell.val "4-8kg"⟩,
                ⟨Cell.val "SNAPPER", Cell.val "6-10kg"⟩] "Snapper" =
      some ⟨Cell.val "snapper", Cell.val "4-8kg"⟩ ∧
    gearLookup [⟨Cell.val "snapper", Cell.val "4-8kg"⟩,
                ⟨Cell.val "SNAPPER", Cell.val "6-10kg"⟩] "Bream" = none ∧
    speciesKeyMatches (Cell.val "snapper") "snapper" = true := by
  refine ⟨by decide, ?_, by decide⟩
  exact (gearLookup_first_match [⟨Cell.val "snapper", Cell.val "4-8kg"⟩,
    ⟨Cell.val "SNAPPER", Cell.val "6-10kg"⟩] "Bream").1.mpr (by decide)

/- ### C2 -/

/-- C2 (amended): for every matched species row whose rating cell holds
a string, the closed-season check lowercases the rating and tests
membership in the sentinel list `['closed', 'no take', 'closed
season']` — the comparison is case-insensitive, not exact-string — and
exactly when it matches, the legal-size line is suppressed and the
closed-season warning surfaced instead. -/
theorem closed_check_case_insensitive (row : SpeciesRow) (r : String)
    (h : row.rating = Cell.val r) :
    (speciesDisplay row = Except.ok SpeciesInfo.closedWarning ↔
      isClosedRating r = true)
    ∧ (isClosedRating r = true ↔
        (lowerStr r = "closed" ∨ lowerStr r = "no take" ∨
         lowerStr r = "closed season"))
    ∧ (isClosedRating r = false →
        speciesDisplay row = Except.ok (SpeciesInfo.sizes (sizeStr row))) := by
  refine ⟨?_, ?_, ?_⟩
  · rw [speciesDisplay, h]
    by_cases hc : isClosedRating r
    · simp [rowGetD, hc]
    · simp only [Bool.not_eq_true] at hc
      simp [rowGetD, hc]
  · rw [isClosedRating, closedSentinels]
    by_cases h1 : lowerStr r = "closed"
    · simp [List.contains, List.elem, beq_iff_eq, h1]
    · by_cases h2 : lowerStr r = "no take"
      · simp [List.contains, List.elem, beq_iff_eq, h1, h2]
      · by_cases h3 : lowerStr r = "closed season"
        · simp [List.contains, List.elem, beq_iff_eq, h1, h2, h3]
        · have e1 : (lowerStr r == "closed") = false :=
            beq_eq_false_iff_ne.mpr h1
          have e2 : (lowerStr r == "no take") = false :=
            beq_eq_false_iff_ne.mpr h2
          have e3 : (lowerStr r == "closed season") = false :=
            beq_eq_false_iff_ne.mpr h3
          simp [List.contains, List.elem, e1, e2, e3, h1, h2, h3]
  · intro hc
    rw [speciesDisplay, h]
    simp [rowGetD, hc]

/-- Concrete instance of `closed_check_case_insensitive`: a row rated
exactly "Closed" gets the closed-season warning. -/
theorem closed_check_case_insensitive_witness :
    speciesDisplay exRowClosedStd = Except.ok SpeciesInfo.closedWarning :=
  (closed_check_case_insensitive exRowClosedStd "Closed" rfl).1.mpr (by decide)

/-- Counterexample to C2 as stated: a row whose rating "CLOSED" is
exactly equal to none of the sentinel spellings still gets the closed-
season warning (sizes suppressed), so the comparison is not exact-
string case-sensitive. -/
theorem closed_check_exact_counterexample :
    speciesDisplay exRowClosedCaps = Except.ok SpeciesInfo.closedWarning ∧
    exRowClosedCaps.rating ≠ Cell.val "Closed" ∧
    exRowClosedCaps.rating ≠ Cell.val "closed" ∧
    exRowClosedCaps.rating ≠ Cell.val "no take" ∧
    exRowClosedCaps.rating ≠ Cell.val "closed season" := by decide

/- ### C4 -/

/-- C4: for every location table, name and date, `resolve` returns the
not-found outcome (`none`, a typed non-fatal value: the code renders a
warning and continues) exactly when no row of the table has the name
under exact string equality — in particular for the empty table — and
otherwise returns the view built from the first row whose name matches
(names are unique by the table invariant, so this is the row of that
location). -/
theorem resolve_notfound_iff (locs : List LocationRow) (name : String)
    (d : PyDate) :
    (resolve locs name d = none ↔
      ∀ l ∈ locs, cellEqStr l.location_name name = false)
    ∧ (∀ v, resolve locs name d = some v →
        ∃ l, l ∈ locs ∧ cellEqStr l.location_name name = true ∧
          (∃ pre post, locs = pre ++ l :: post ∧
            ∀ x ∈ pre, cellEqStr x.location_name name = false) ∧
          v = mkView l d) := by
  rw [resolve_eq_find?]
  constructor
  · rw [Option.map_eq_none']
    rw [List.find?_eq_none]
    constructor
    · intro h l hl
      have := h l hl
      simpa using this
    · intro h l hl
      simp [h l hl]
  · intro v hv
    rw [Option.map_eq_some'] at hv
    obtain ⟨l, hf, hview⟩ := hv
    obtain ⟨hpl, pre, post, hdec, hpre⟩ := find?_some_decomp _ _ _ hf
    refine ⟨l, ?_, hpl, ⟨pre, post, hdec, hpre⟩, hview.symm⟩
    rw [hdec]
    exact List.mem_append_right pre (List.mem_cons_self l post)

/-- Concrete instance of `resolve_notfound_iff`: an unknown name on a
one-row table resolves to `none`, and the known name resolves to the
view of that row. -/
theorem resolve_notfound_iff_witness :
    resolve [exLocSydney] "Unknown Town" ⟨1, 2026⟩ = none ∧
    ∃ l, l ∈ [exLocSydney] ∧ cellEqStr l.location_name "Sydney" = true ∧
      (∃ pre post, ([exLocSydney] : List LocationRow) = pre ++ l :: post ∧
        ∀ x ∈ pre, cellEqStr x.location_name "Sydney" = false) ∧
      mkView exLocSydney ⟨1, 2026⟩ = mkView l ⟨1, 2026⟩ := by
  constructor
  · exact (resolve_notfound_iff [exLocSydney] "Unknown Town" ⟨1, 2026⟩).1.mpr
      (by decide)
  · exact (resolve_notfound_iff [exLocSydney] "Sydney" ⟨1, 2026⟩).2
      (mkView exLocSydney ⟨1, 2026⟩) (by decide)

/- ### C5 -/

/-- C5 (amended): for every resolved location and date with a calendar
month, the derived zone is the zone cell value when it holds a string;
the "Unknown" default applies only when the zone column is absent from
the row (which cannot happen for a table that passed required-column
validation), and a null zone cell passes through as NaN, not as
"Unknown"; the derived month name is the English full name of the date
month, and the view carries the date year. -/
theorem zone_month_derivation (l : LocationRow) (d : PyDate)
    (h1 : 1 ≤ d.month) (h2 : d.month ≤ 12) :
    (∀ s, l.zone = Cell.val s → derivedZone l = PyVal.str s)
    ∧ (l.zone = Cell.absent → derivedZone l = PyVal.str "Unknown")
    ∧ (l.zone = Cell.null → derivedZone l = PyVal.nan)
    ∧ (mkView l d).zone = derivedZone l
    ∧ (mkView l d).monthName = englishMonthName d.month
    ∧ (mkView l d).year = d.year := by
  refine ⟨?_, ?_, ?_, rfl, ?_, rfl⟩
  · intro s hs; rw [derivedZone, hs]; rfl
  · intro hs; rw [derivedZone, hs]; rfl
  · intro hs; rw [derivedZone, hs]; rfl
  · show monthNameOf d.month = englishMonthName d.month
    obtain ⟨m, y⟩ := d
    simp only at h1 h2 ⊢
    interval_cases m <;> rfl

/-- Concrete instance of `zone_month_derivation`: the Sydney row passes
its zone label through, and January 2026 derives the month name
"January". -/
theorem zone_month_derivation_witness :
    derivedZone exLocSydney = PyVal.str "NSW East (default)" ∧
    (mkView exLocSydney ⟨1, 2026⟩).monthName = "January" := by
  have h := zone_month_derivation exLocSydney ⟨1, 2026⟩ (by decide) (by decide)
  exact ⟨h.1 "NSW East (default)" rfl, h.2.2.2.2.1⟩

/-- Counterexample to C5 as stated: a location whose zone cell is null
(an absent zone value) does not get the "Unknown" default — the
`Series.get` default applies only to an absent key — so the derived
zone is NaN, not "Unknown". -/
theorem zone_null_counterexample :
    exLocNullZone.zone = Cell.null ∧
    derivedZone exLocNullZone = PyVal.nan ∧
    derivedZone exLocNullZone ≠ PyVal.str "Unknown" := by decide

/- ### C6 -/

/-- C6: a missing source file yields the empty table with a reported
condition, a table missing any required column likewise, and each of
the three tables of `load_data` depends only on its own source file, so
one failing source leaves the other two loads unchanged.  `safe_load`
and `load_data` are total functions: every outcome is a value, never an
abort. -/
theorem safe_load_isolated (fs fs2 : String → LoadSource) (t : RawTable)
    (req : List String) :
    (safe_load LoadSource.missingFile req = (emptyTable, true))
    ∧ (∀ c, c ∈ req → t.cols.contains c = false →
        safe_load (LoadSource.ok t) req = (emptyTable, true))
    ∧ (fs "locations.csv" = fs2 "locations.csv" →
        (load_data fs).1 = (load_data fs2).1)
    ∧ (fs "fishing_data.csv" = fs2 "fishing_data.csv" →
        (load_data fs).2.1 = (load_data fs2).2.1)
    ∧ (fs "gear_data.csv" = fs2 "gear_data.csv" →
        (load_data fs).2.2 = (load_data fs2).2.2) := by
  refine ⟨rfl, ?_, ?_, ?_, ?_⟩
  · intro c hc hnc
    have hmem : c ∈ req.filter (fun c => !(t.cols.contains c)) :=
      List.mem_filter.mpr ⟨hc, by simpa using hnc⟩
    have hne : (req.filter (fun c => !(t.cols.contains c))).isEmpty = false := by
      cases hf : req.filter (fun c => !(t.cols.contains c)) with
      | nil => rw [hf] at hmem; cases hmem
      | cons a tl => rfl
    have hcond : ¬((req.filter (fun c => !(t.cols.contains c))).isEmpty = true) := by
      rw [hne]; exact Bool.false_ne_true
    simp only [safe_load]
    rw [if_neg hcond]
  · intro h; simp [load_data, h]
  · intro h; simp [load_data, h]
  · intro h; simp [load_data, h]

/-- Concrete instance of `safe_load_isolated`: a missing locations file
loads as the empty table with a reported condition, and a fishing table
lacking the required "species" column does too. -/
theorem safe_load_isolated_witness :
    safe_load LoadSource.missingFile ["location_name", "zone"]
      = (emptyTable, true) ∧
    safe_load (LoadSource.ok ⟨["month", "zone"], []⟩)
      ["month", "zone", "species"] = (emptyTable, true) := by
  constructor
  · exact (safe_load_isolated (fun _ => LoadSource.missingFile)
      (fun _ => LoadSource.missingFile) ⟨["month", "zone"], []⟩
      ["location_name", "zone"]).1
  · exact (safe_load_isolated (fun _ => LoadSource.missingFile)
      (fun _ => LoadSource.missingFile) ⟨["month", "zone"], []⟩
      ["month", "zone", "species"]).2.1 "species" (by decide) (by decide)

/- ### C7 -/

/-- C7 (amended): for every location row, the map-link affordance is
produced exactly when both coordinate columns are present in the row
and both cells are non-null; the values are never parsed or validated
as numbers, so a non-numeric coordinate string still produces a
link. -/
theorem maps_link_condition (l : LocationRow) :
    (mapsLink l).isSome = true ↔
      ((∃ s, l.latitude = Cell.val s) ∧ (∃ s, l.longitude = Cell.val s)) := by
  obtain ⟨n, z, st, la, lo⟩ := l
  cases la <;> cases lo <;>
    simp [mapsLink, cellPresent, notnaCell]

/-- Concrete instance of `maps_link_condition`: the Sydney row, with
both coordinates populated, gets a map link. -/
theorem maps_link_condition_witness :
    (mapsLink exLocSydney).isSome = true :=
  (maps_link_condition exLocSydney).mpr ⟨⟨"-33.8", rfl⟩, ⟨"151.2", rfl⟩⟩

/-- Counterexample to C7 as stated: a location whose latitude cell holds
the non-numeric text "abc" still produces a map link, because the code
checks only presence and `pd.notna`, never numeric validity. -/
theorem maps_link_nonnumeric_counterexample :
    (mapsLink exLocBadCoords).isSome = true ∧
    exLocBadCoords.latitude = Cell.val "abc" ∧
    isNumericStr "abc" = false ∧
    isNumericStr "151.2" = true := by decide

/- ### C8 -/

/-- C8: for every species row, the legal-maximum text is appended to
the size line exactly when the max cell holds a non-empty string; when
the cell is null, the column absent, or the value empty, the size line
is exactly the legal-minimum part, with no dangling "Max: cm" text. -/
theorem max_len_rendering (row : SpeciesRow) :
    (∀ s, row.legal_max_cm = Cell.val s → s ≠ "" →
      sizeStr row = minPartStr row ++ "  |  **Max:** " ++ s ++ " cm")
    ∧ (row.legal_max_cm = Cell.null ∨ row.legal_max_cm = Cell.absent ∨
        row.legal_max_cm = Cell.val "" →
      sizeStr row = minPartStr row) := by
  constructor
  · intro s hs hne
    rw [sizeStr, hs]
    simp [rowGetD, notna, pyNeStr, pyStr, hne]
  · intro hcase
    rcases hcase with h | h | h <;> rw [sizeStr, h] <;>
      simp [rowGetD, notna, pyNeStr]

/-- Concrete instance of `max_len_rendering`: a populated max renders
the max part; a null max renders the min part only. -/
theorem max_len_rendering_witness :
    sizeStr exRowClosedCaps
      = minPartStr exRowClosedCaps ++ "  |  **Max:** " ++ "60" ++ " cm" ∧
    sizeStr exRowJan = minPartStr exRowJan := by
  constructor
  · exact (max_len_rendering exRowClosedCaps).1 "60" rfl (by decide)
  · exact (max_len_rendering exRowJan).2 (Or.inl rfl)

/- ### C10 -/

/-- C10: the species display step errors exactly when the rating cell
is null — `row.get('rating', '—')` returns NaN there and
`rating.lower()` raises — while the "—" fallback applies only when the
rating column is entirely absent from the row, in which case the
display behaves as if the rating were the string "—". -/
theorem rating_null_raises (row : SpeciesRow) :
    (speciesDisplay row = Except.error () ↔ row.rating = Cell.null)
    ∧ (row.rating = Cell.absent →
        speciesDisplay row
          = speciesDisplay { row with rating := Cell.val "—" }) := by
  obtain ⟨mo, z, sp, ra, mi, ma⟩ := row
  constructor
  · cases ra <;> simp [speciesDisplay, rowGetD]
  · intro h
    simp only at h
    rw [h]
    rfl

/-- Concrete instance of `rating_null_raises`: a matched row whose
rating cell is null makes the display step raise instead of producing a
result. -/
theorem rating_null_raises_witness :
    speciesDisplay exRowNullRating = Except.error () :=
  (rating_null_raises exRowNullRating).1.mpr rfl

end FishingCal
